/-
Verification of the coordinate-conversion utility `tools/BD-09_to_WGS84.cpp`
(BD09 → GCJ02 → WGS84 datum transforms with a bisection inverse).

The C++ code computes with IEEE doubles and libm; the embedding idealises
doubles as real numbers (ℝ), libm's sin/cos/sqrt/atan2 as the exact real
functions, and keeps every constant, formula and control-flow decision of
the source.  Pairs follow the source convention: `.1` is the longitude,
`.2` is the latitude.
-/
import Mathlib

open Classical

noncomputable section

/-- Source line 5: `const double PI = 3.14159265358979323846;`.
The source works with this rational literal, not the exact π. -/
def PI : ℝ := 3.14159265358979323846

/-- Source line 6: `const double A = 6378245.0;` (semi-major axis, meters). -/
def A : ℝ := 6378245

/-- Source line 7: `const double EE = 0.00669342162296594323;` (eccentricity²). -/
def EE : ℝ := 0.00669342162296594323

/-- Source lines 16-18: `outOfChina(lng, lat)` — true iff the point lies
outside the fixed bounding box. -/
def outOfChina (lng lat : ℝ) : Prop :=
  lng < 72.004 ∨ lng > 137.8347 ∨ lat < 0.8293 ∨ lat > 55.8271

/-- Source lines 20-26: `transformLat(x, y)`. -/
def transformLat (x y : ℝ) : ℝ :=
  -100 + 2*x + 3*y + 0.2*y*y + 0.1*x*y + 0.2*Real.sqrt (|x|)
  + (20*Real.sin (6*x*PI) + 20*Real.sin (2*x*PI)) * 2/3
  + (20*Real.sin (y*PI) + 40*Real.sin (y/3*PI)) * 2/3
  + (160*Real.sin (y/12*PI) + 320*Real.sin (y*PI/30)) * 2/3

/-- Source lines 28-34: `transformLon(x, y)`. -/
def transformLon (x y : ℝ) : ℝ :=
  300 + x + 2*y + 0.1*x*x + 0.1*x*y + 0.1*Real.sqrt (|x|)
  + (20*Real.sin (6*x*PI) + 20*Real.sin (2*x*PI)) * 2/3
  + (20*Real.sin (x*PI) + 40*Real.sin (x/3*PI)) * 2/3
  + (150*Real.sin (x/12*PI) + 300*Real.sin (x/30*PI)) * 2/3

/-- libm's `atan2(y, x)` (C standard semantics; `atan2(0,0) = 0`). -/
def atan2 (y x : ℝ) : ℝ :=
  if 0 < x then Real.arctan (y / x)
  else if x < 0 then
    (if 0 ≤ y then Real.arctan (y / x) + Real.pi else Real.arctan (y / x) - Real.pi)
  else (if 0 < y then Real.pi / 2 else if y < 0 then -(Real.pi / 2) else 0)

/-- Source lines 36-44: `bd09_to_gcj02(bd_lng, bd_lat)` — closed-form
inverse of the BD09 encoding, no region guard. -/
def bd09_to_gcj02 (bd_lng bd_lat : ℝ) : ℝ × ℝ :=
  let x := bd_lng - 0.0065
  let y := bd_lat - 0.006
  let z := Real.sqrt (x*x + y*y) - 0.00002 * Real.sin (y * PI)
  let theta := atan2 y x - 0.000003 * Real.cos (x * PI)
  (z * Real.cos theta, z * Real.sin theta)

/-- Source line 50: the local `radLat = lat / 180.0 * PI` of `wgs84_to_gcj02`. -/
def radLat (lat : ℝ) : ℝ := lat / 180 * PI

/-- Source lines 51-52: the local `magic = 1 - EE * sin(radLat)^2` of
`wgs84_to_gcj02` (the source squares by multiplication). -/
def magic (lat : ℝ) : ℝ := 1 - EE * Real.sin (radLat lat) * Real.sin (radLat lat)

/-- Source line 53: the local `sqrtMagic = sqrt(magic)` of `wgs84_to_gcj02`. -/
def sqrtMagic (lat : ℝ) : ℝ := Real.sqrt (magic lat)

/-- Source lines 46-59: `wgs84_to_gcj02(lng, lat)` — forward obfuscation,
identity outside the bounding box.  The locals `radLat`, `magic`,
`sqrtMagic` are the named definitions above. -/
def wgs84_to_gcj02 (lng lat : ℝ) : ℝ × ℝ :=
  if outOfChina lng lat then (lng, lat) else
    let dLat0 := transformLat (lng - 105) (lat - 35)
    let dLng0 := transformLon (lng - 105) (lat - 35)
    let dLat := (dLat0 * 180) / ((A * (1 - EE)) / (magic lat * sqrtMagic lat) * PI)
    let dLng := (dLng0 * 180) / (A / sqrtMagic lat * Real.cos (radLat lat) * PI)
    (lng + dLng, lat + dLat)

/-- Source line 63: `const double threshold = 1e-7;`. -/
def threshold : ℝ := 1e-7

/-- Source lines 67-86: the bisection loop of `gcj02_to_wgs84`, with the
remaining iteration count as fuel.  Arguments after the fuel are the
current `minLat maxLat minLng maxLng` bounds and the midpoint variables
`midLat midLng` that survive the loop (initially `0.0`); when the fuel is
exhausted the loop exits and line 87 returns the carried midpoint. -/
def bisectLoop (lng lat : ℝ) : ℕ → ℝ → ℝ → ℝ → ℝ → ℝ → ℝ → ℝ × ℝ
  | 0, _, _, _, _, midLat, midLng => (midLng, midLat)
  | n + 1, minLat, maxLat, minLng, maxLng, _, _ =>
    let midLat := (minLat + maxLat) / 2
    let midLng := (minLng + maxLng) / 2
    let tmp := wgs84_to_gcj02 midLng midLat
    let dLng := tmp.1 - lng
    let dLat := tmp.2 - lat
    if |dLat| < threshold ∧ |dLng| < threshold then (midLng, midLat)
    else
      bisectLoop lng lat n
        (if dLat > 0 then minLat else midLat)
        (if dLat > 0 then midLat else maxLat)
        (if dLng > 0 then minLng else midLng)
        (if dLng > 0 then midLng else maxLng)
        midLat midLng

/-- The number of loop iterations `bisectLoop` actually executes (an
iteration that hits the tolerance counts as executed). -/
def bisectCount (lng lat : ℝ) : ℕ → ℝ → ℝ → ℝ → ℝ → ℕ
  | 0, _, _, _, _ => 0
  | n + 1, minLat, maxLat, minLng, maxLng =>
    let midLat := (minLat + maxLat) / 2
    let midLng := (minLng + maxLng) / 2
    let tmp := wgs84_to_gcj02 midLng midLat
    let dLng := tmp.1 - lng
    let dLat := tmp.2 - lat
    if |dLat| < threshold ∧ |dLng| < threshold then 1
    else
      1 + bisectCount lng lat n
        (if dLat > 0 then minLat else midLat)
        (if dLat > 0 then midLat else maxLat)
        (if dLng > 0 then minLng else midLng)
        (if dLng > 0 then midLng else maxLng)

/-- Source lines 61-88: `gcj02_to_wgs84(lng, lat)` — identity outside the
bounding box, otherwise 30 bisection iterations over the ±0.5° box with the
midpoint variables initialised to `0.0` (lines 64-66). -/
def gcj02_to_wgs84 (lng lat : ℝ) : ℝ × ℝ :=
  if outOfChina lng lat then (lng, lat)
  else bisectLoop lng lat 30 (lat - 0.5) (lat + 0.5) (lng - 0.5) (lng + 0.5) 0 0

/-- Source lines 90-93: `bd09_to_wgs84 = gcj02_to_wgs84 ∘ bd09_to_gcj02`. -/
def bd09_to_wgs84 (bd_lng bd_lat : ℝ) : ℝ × ℝ :=
  let g := bd09_to_gcj02 bd_lng bd_lat
  gcj02_to_wgs84 g.1 g.2

/-- One successfully parsed input record of `main` (source line 105):
a longitude, the delimiter character that followed it, and a latitude. -/
structure Record where
  lng : ℝ
  delim : Char
  lat : ℝ

/-- One output line of `main` (source line 107): the printed longitude
value, the echoed delimiter, the literal space, the printed latitude value.
The 8-decimal fixed-point rendering of the values (lines 99-100) is kept
abstract; `driverPrecision` records the configured precision. -/
structure OutLine where
  lngOut : ℝ
  delim : Char
  sep : Char
  latOut : ℝ

/-- Source line 100: `cout << setprecision(8)` with `ios::fixed`. -/
def driverPrecision : ℕ := 8

/-- Source lines 106-107: processing of one parsed record — convert, add
the fixed calibration offset after the pipeline, emit the line. -/
def processRecord (r : Record) : OutLine :=
  let w := bd09_to_wgs84 r.lng r.lat
  ⟨w.1 + 0.0001, r.delim, ' ', w.2 - 0.0003⟩

/-- Source lines 102-108: the read loop of `main`.  The input stream is
modelled as the list of read outcomes: `some r` is a successfully parsed
record, `none` a failed read (end of input or a malformed token), and the
exhausted stream is the empty list (`cin` then also fails).  The first
failed read breaks the loop; everything after it is never read. -/
def mainLoop : List (Option Record) → List OutLine
  | [] => []
  | none :: _ => []
  | some r :: rest => processRecord r :: mainLoop rest

/-- Source lines 95-110: the whole driver — the produced output lines
paired with the exit code (line 109: `return 0;`). -/
def mainProgram (input : List (Option Record)) : List OutLine × ℕ :=
  (mainLoop input, 0)

end

/- ## Helper lemmas -/

/-- Fuel exhausted: the loop exits and the carried midpoint is returned. -/
lemma bisectLoop_zero (lng lat a b c d mLat mLng : ℝ) :
    bisectLoop lng lat 0 a b c d mLat mLng = (mLng, mLat) := rfl

/-- One unfolding of a loop iteration: compute the midpoints, test the
forward-transform residual, return on tolerance, otherwise narrow each
axis towards the residual's sign and continue. -/
lemma bisectLoop_succ (lng lat : ℝ) (n : ℕ) (a b c d mLat mLng : ℝ) :
    bisectLoop lng lat (n + 1) a b c d mLat mLng =
      (if |(wgs84_to_gcj02 ((c + d) / 2) ((a + b) / 2)).2 - lat| < threshold ∧
          |(wgs84_to_gcj02 ((c + d) / 2) ((a + b) / 2)).1 - lng| < threshold
       then ((c + d) / 2, (a + b) / 2)
       else bisectLoop lng lat n
         (if (wgs84_to_gcj02 ((c + d) / 2) ((a + b) / 2)).2 - lat > 0 then a else (a + b) / 2)
         (if (wgs84_to_gcj02 ((c + d) / 2) ((a + b) / 2)).2 - lat > 0 then (a + b) / 2 else b)
         (if (wgs84_to_gcj02 ((c + d) / 2) ((a + b) / 2)).1 - lng > 0 then c else (c + d) / 2)
         (if (wgs84_to_gcj02 ((c + d) / 2) ((a + b) / 2)).1 - lng > 0 then (c + d) / 2 else d)
         ((a + b) / 2) ((c + d) / 2)) := rfl

/-- The loop body runs at most `fuel` times. -/
lemma bisectCount_le (lng lat : ℝ) :
    ∀ (n : ℕ) (a b c d : ℝ), bisectCount lng lat n a b c d ≤ n := by
  intro n
  induction n with
  | zero => intro a b c d; simp [bisectCount]
  | succ n ih =>
    intro a b c d
    simp only [bisectCount]
    split
    · exact Nat.succ_le_succ (Nat.zero_le n)
    · calc 1 + bisectCount lng lat n _ _ _ _ ≤ 1 + n := Nat.add_le_add_left (ih _ _ _ _) 1
        _ = n + 1 := Nat.add_comm 1 n

/-- Search-box invariant: if the current bounds are ordered and contained
in a fixed box, and (when no fuel is left) the carried midpoint lies in the
box, then the loop's result lies in the box. -/
lemma bisectLoop_mem (lng lat loLat hiLat loLng hiLng : ℝ) :
    ∀ (n : ℕ) (a b c d mLat mLng : ℝ),
      loLat ≤ a → a ≤ b → b ≤ hiLat →
      loLng ≤ c → c ≤ d → d ≤ hiLng →
      (n = 0 → loLat ≤ mLat ∧ mLat ≤ hiLat ∧ loLng ≤ mLng ∧ mLng ≤ hiLng) →
      loLng ≤ (bisectLoop lng lat n a b c d mLat mLng).1 ∧
      (bisectLoop lng lat n a b c d mLat mLng).1 ≤ hiLng ∧
      loLat ≤ (bisectLoop lng lat n a b c d mLat mLng).2 ∧
      (bisectLoop lng lat n a b c d mLat mLng).2 ≤ hiLat := by
  intro n
  induction n with
  | zero =>
    intro a b c d mLat mLng h1 h2 h3 h4 h5 h6 hm
    obtain ⟨p1, p2, p3, p4⟩ := hm rfl
    rw [bisectLoop_zero]
    exact ⟨p3, p4, p1, p2⟩
  | succ n ih =>
    intro a b c d mLat mLng h1 h2 h3 h4 h5 h6 _
    have hla : a ≤ (a + b) / 2 := by linarith
    have hlb : (a + b) / 2 ≤ b := by linarith
    have hlc : c ≤ (c + d) / 2 := by linarith
    have hld : (c + d) / 2 ≤ d := by linarith
    rw [bisectLoop_succ]
    split
    · exact ⟨by linarith, by linarith, by linarith, by linarith⟩
    · apply ih
      · split <;> linarith
      · split <;> linarith
      · split <;> linarith
      · split <;> linarith
      · split <;> linarith
      · split <;> linarith
      · intro _
        exact ⟨by linarith, by linarith, by linarith, by linarith⟩

/-- The output lines of the driver: the loop stops at the first failed
read, so exactly the records before it are printed. -/
lemma mainLoop_append_none (pre : List Record) (rest : List (Option Record)) :
    mainLoop (pre.map some ++ none :: rest) = pre.map processRecord := by
  induction pre with
  | nil => rfl
  | cons r pre ih => simp [mainLoop, ih]

/-- When every read succeeds, every record is printed and the loop stops
at the exhausted stream. -/
lemma mainLoop_all_some (pre : List Record) :
    mainLoop (pre.map some) = pre.map processRecord := by
  induction pre with
  | nil => rfl
  | cons r pre ih => simp [mainLoop, ih]

/- ## Claims -/

/-- Claim C4: for every point outside the bounding box (lng < 72.004 or
lng > 137.8347 or lat < 0.8293 or lat > 55.8271) — and `outOfChina` holds
exactly under this condition — both `wgs84_to_gcj02` and `gcj02_to_wgs84`
return the input unchanged. -/
theorem claim_c4_bounding_box_guard (lng lat : ℝ)
    (h : lng < 72.004 ∨ lng > 137.8347 ∨ lat < 0.8293 ∨ lat > 55.8271) :
    outOfChina lng lat ∧
    wgs84_to_gcj02 lng lat = (lng, lat) ∧
    gcj02_to_wgs84 lng lat = (lng, lat) ∧
    (∀ a b : ℝ,
      outOfChina a b ↔ (a < 72.004 ∨ a > 137.8347 ∨ b < 0.8293 ∨ b > 55.8271)) := by
  refine ⟨h, ?_, ?_, fun a b => Iff.rfl⟩
  · simp only [wgs84_to_gcj02, if_pos (show outOfChina lng lat from h)]
  · simp only [gcj02_to_wgs84, if_pos (show outOfChina lng lat from h)]

/-- Witness for C4 at the concrete out-of-box point (0, 0). -/
theorem claim_c4_witness :
    outOfChina 0 0 ∧ wgs84_to_gcj02 0 0 = (0, 0) ∧ gcj02_to_wgs84 0 0 = (0, 0) := by
  have h : (0 : ℝ) < 72.004 ∨ (0 : ℝ) > 137.8347 ∨ (0 : ℝ) < 0.8293 ∨ (0 : ℝ) > 55.8271 :=
    Or.inl (by norm_num)
  exact ⟨(claim_c4_bounding_box_guard 0 0 h).1, (claim_c4_bounding_box_guard 0 0 h).2.1,
    (claim_c4_bounding_box_guard 0 0 h).2.2.1⟩

/-- Claim C5: `bd09_to_gcj02` has no region guard and computes exactly
`(z·cos θ, z·sin θ)` with `x = bd_lng - 0.0065`, `y = bd_lat - 0.0060`,
`z = √(x² + y²) - 0.00002·sin(y·π)`, `θ = atan2(y,x) - 0.000003·cos(x·π)`. -/
theorem claim_c5_bd09_closed_form (bd_lng bd_lat : ℝ) :
    bd09_to_gcj02 bd_lng bd_lat =
      ((Real.sqrt ((bd_lng - 0.0065)^2 + (bd_lat - 0.0060)^2)
          - 0.00002 * Real.sin ((bd_lat - 0.0060) * PI)) *
        Real.cos (atan2 (bd_lat - 0.0060) (bd_lng - 0.0065)
          - 0.000003 * Real.cos ((bd_lng - 0.0065) * PI)),
       (Real.sqrt ((bd_lng - 0.0065)^2 + (bd_lat - 0.0060)^2)
          - 0.00002 * Real.sin ((bd_lat - 0.0060) * PI)) *
        Real.sin (atan2 (bd_lat - 0.0060) (bd_lng - 0.0065)
          - 0.000003 * Real.cos ((bd_lng - 0.0065) * PI))) := by
  simp only [bd09_to_gcj02]
  norm_num [pow_two]

/-- Claim C2: on in-China input, `wgs84_to_gcj02` returns
`(lng + dLng, lat + dLat)` with the corrections given by `transformLat` /
`transformLon` at `(lng-105, lat-35)` scaled by the stated ellipsoid
factors, and the transform formulas and constants are exactly as stated. -/
theorem claim_c2_forward_formula (lng lat : ℝ) (h : ¬ outOfChina lng lat) :
    wgs84_to_gcj02 lng lat =
      (lng + transformLon (lng - 105) (lat - 35) * 180 /
          ((A / sqrtMagic lat) * Real.cos (radLat lat) * PI),
       lat + transformLat (lng - 105) (lat - 35) * 180 /
          ((A * (1 - EE) / (magic lat * sqrtMagic lat)) * PI)) ∧
    radLat lat = lat * PI / 180 ∧
    magic lat = 1 - EE * Real.sin (radLat lat) ^ 2 ∧
    sqrtMagic lat = Real.sqrt (magic lat) ∧
    A = 6378245.0 ∧ EE = 0.00669342162296594323 ∧
    (∀ x y : ℝ, transformLat x y =
      -100 + 2*x + 3*y + 0.2*y^2 + 0.1*x*y + 0.2*Real.sqrt (|x|)
      + (2/3) * (20*Real.sin (6*x*PI) + 20*Real.sin (2*x*PI))
      + (2/3) * (20*Real.sin (y*PI) + 40*Real.sin (y/3*PI))
      + (2/3) * (160*Real.sin (y/12*PI) + 320*Real.sin (y*PI/30))) ∧
    (∀ x y : ℝ, transformLon x y =
      300 + x + 2*y + 0.1*x^2 + 0.1*x*y + 0.1*Real.sqrt (|x|)
      + (2/3) * (20*Real.sin (6*x*PI) + 20*Real.sin (2*x*PI))
      + (2/3) * (20*Real.sin (x*PI) + 40*Real.sin (x/3*PI))
      + (2/3) * (150*Real.sin (x/12*PI) + 300*Real.sin (x/30*PI))) := by
  refine ⟨?_, by simp only [radLat]; ring, by simp only [magic]; ring, rfl,
    by norm_num [A], by norm_num [EE], ?_, ?_⟩
  · simp only [wgs84_to_gcj02, if_neg h]
  · intro x y; simp only [transformLat]; ring
  · intro x y; simp only [transformLon]; ring

/-- Witness for C2 at the concrete in-China point (116.404, 39.915). -/
theorem claim_c2_witness :
    ¬ outOfChina 116.404 39.915 ∧
    wgs84_to_gcj02 116.404 39.915 =
      (116.404 + transformLon (116.404 - 105) (39.915 - 35) * 180 /
          ((A / sqrtMagic 39.915) * Real.cos (radLat 39.915) * PI),
       39.915 + transformLat (116.404 - 105) (39.915 - 35) * 180 /
          ((A * (1 - EE) / (magic 39.915 * sqrtMagic 39.915)) * PI)) := by
  have h : ¬ outOfChina 116.404 39.915 := by norm_num [outOfChina]
  exact ⟨h, (claim_c2_forward_formula 116.404 39.915 h).1⟩

/-- Claim C3: on in-China input, `gcj02_to_wgs84` runs the bisection over
the initial ±0.5° box with tolerance 1e-7 and a hard cap of 30 iterations;
it returns the midpoint as soon as both residuals are below the tolerance,
and on exhausted fuel it returns the last computed midpoint, so it always
terminates with a result (the loop is a total function). -/
theorem claim_c3_bisection_cap (lng lat : ℝ) (h : ¬ outOfChina lng lat) :
    threshold = 1e-7 ∧
    gcj02_to_wgs84 lng lat =
      bisectLoop lng lat 30 (lat - 0.5) (lat + 0.5) (lng - 0.5) (lng + 0.5) 0 0 ∧
    (∀ (n : ℕ) (a b c d : ℝ), bisectCount lng lat n a b c d ≤ n) ∧
    (∀ (n : ℕ) (a b c d mLat mLng : ℝ),
        |(wgs84_to_gcj02 ((c + d) / 2) ((a + b) / 2)).2 - lat| < threshold →
        |(wgs84_to_gcj02 ((c + d) / 2) ((a + b) / 2)).1 - lng| < threshold →
        bisectLoop lng lat (n + 1) a b c d mLat mLng = ((c + d) / 2, (a + b) / 2)) ∧
    (∀ (a b c d mLat mLng : ℝ), bisectLoop lng lat 0 a b c d mLat mLng = (mLng, mLat)) := by
  refine ⟨rfl, by simp only [gcj02_to_wgs84, if_neg h], bisectCount_le lng lat, ?_,
    fun a b c d mLat mLng => rfl⟩
  intro n a b c d mLat mLng h1 h2
  rw [bisectLoop_succ, if_pos ⟨h1, h2⟩]

/-- Witness for C3 at the concrete in-China point (116.404, 39.915). -/
theorem claim_c3_witness :
    ¬ outOfChina 116.404 39.915 ∧ threshold = 1e-7 ∧
    gcj02_to_wgs84 116.404 39.915 =
      bisectLoop 116.404 39.915 30
        (39.915 - 0.5) (39.915 + 0.5) (116.404 - 0.5) (116.404 + 0.5) 0 0 := by
  have h : ¬ outOfChina 116.404 39.915 := by norm_num [outOfChina]
  exact ⟨h, (claim_c3_bisection_cap 116.404 39.915 h).1,
    (claim_c3_bisection_cap 116.404 39.915 h).2.1⟩

/-- Claim C9: on in-China input the bisection's search box never leaves the
initial ±0.5° box centred on the input, so the returned coordinate lies
within it (proved from the per-iteration invariant `bisectLoop_mem`). -/
theorem claim_c9_search_box_invariant (lng lat : ℝ) (h : ¬ outOfChina lng lat) :
    lng - 0.5 ≤ (gcj02_to_wgs84 lng lat).1 ∧ (gcj02_to_wgs84 lng lat).1 ≤ lng + 0.5 ∧
    lat - 0.5 ≤ (gcj02_to_wgs84 lng lat).2 ∧ (gcj02_to_wgs84 lng lat).2 ≤ lat + 0.5 := by
  have key := bisectLoop_mem lng lat (lat - 0.5) (lat + 0.5) (lng - 0.5) (lng + 0.5)
    30 (lat - 0.5) (lat + 0.5) (lng - 0.5) (lng + 0.5) 0 0
    le_rfl (by linarith) le_rfl le_rfl (by linarith) le_rfl
    (fun h0 => absurd h0 (by norm_num))
  simp only [gcj02_to_wgs84, if_neg h]
  exact key

/-- Witness for C9 at the concrete in-China point (116.404, 39.915). -/
theorem claim_c9_witness :
    ¬ outOfChina 116.404 39.915 ∧
    116.404 - 0.5 ≤ (gcj02_to_wgs84 116.404 39.915).1 ∧
    (gcj02_to_wgs84 116.404 39.915).1 ≤ 116.404 + 0.5 ∧
    39.915 - 0.5 ≤ (gcj02_to_wgs84 116.404 39.915).2 ∧
    (gcj02_to_wgs84 116.404 39.915).2 ≤ 39.915 + 0.5 := by
  have h : ¬ outOfChina 116.404 39.915 := by norm_num [outOfChina]
  exact ⟨h, claim_c9_search_box_invariant 116.404 39.915 h⟩

/-- Claim C10: the first bisection midpoint is the input point itself, so
when the forward transform moves the input by less than 1e-7 in both
components the inverse returns the input exactly, after a single
iteration; otherwise the loop continues from bounds narrowed at the input
point with the input carried as current midpoint. -/
theorem claim_c10_first_midpoint (lng lat : ℝ) (h : ¬ outOfChina lng lat) :
    gcj02_to_wgs84 lng lat =
      (if |(wgs84_to_gcj02 lng lat).2 - lat| < 1e-7 ∧
          |(wgs84_to_gcj02 lng lat).1 - lng| < 1e-7
       then (lng, lat)
       else bisectLoop lng lat 29
         (if (wgs84_to_gcj02 lng lat).2 - lat > 0 then lat - 0.5 else lat)
         (if (wgs84_to_gcj02 lng lat).2 - lat > 0 then lat else lat + 0.5)
         (if (wgs84_to_gcj02 lng lat).1 - lng > 0 then lng - 0.5 else lng)
         (if (wgs84_to_gcj02 lng lat).1 - lng > 0 then lng else lng + 0.5)
         lat lng) := by
  have e1 : (lat - 0.5 + (lat + 0.5)) / 2 = lat := by ring
  have e2 : (lng - 0.5 + (lng + 0.5)) / 2 = lng := by ring
  have h30 : (30 : ℕ) = 29 + 1 := rfl
  simp only [gcj02_to_wgs84, if_neg h, h30, bisectLoop_succ, e1, e2, threshold]

/-- Witness for C10 at the concrete in-China point (116.404, 39.915). -/
theorem claim_c10_witness :
    ¬ outOfChina 116.404 39.915 ∧
    gcj02_to_wgs84 116.404 39.915 =
      (if |(wgs84_to_gcj02 116.404 39.915).2 - 39.915| < 1e-7 ∧
          |(wgs84_to_gcj02 116.404 39.915).1 - 116.404| < 1e-7
       then (116.404, 39.915)
       else bisectLoop 116.404 39.915 29
         (if (wgs84_to_gcj02 116.404 39.915).2 - 39.915 > 0 then 39.915 - 0.5 else 39.915)
         (if (wgs84_to_gcj02 116.404 39.915).2 - 39.915 > 0 then 39.915 else 39.915 + 0.5)
         (if (wgs84_to_gcj02 116.404 39.915).1 - 116.404 > 0 then 116.404 - 0.5 else 116.404)
         (if (wgs84_to_gcj02 116.404 39.915).1 - 116.404 > 0 then 116.404 else 116.404 + 0.5)
         39.915 116.404) := by
  have h : ¬ outOfChina 116.404 39.915 := by norm_num [outOfChina]
  exact ⟨h, claim_c10_first_midpoint 116.404 39.915 h⟩

/-- Claim C8: no division by zero in `wgs84_to_gcj02`: `magic` is strictly
positive for every real latitude, hence so is `sqrtMagic`; inside the
bounding box `cos(radLat)` is strictly positive; so both scaling
denominators are nonzero. -/
theorem claim_c8_no_division_by_zero (lat : ℝ)
    (h1 : 0.8293 ≤ lat) (h2 : lat ≤ 55.8271) :
    (∀ l : ℝ, 0 < magic l) ∧ (∀ l : ℝ, 0 < sqrtMagic l) ∧
    0 < Real.cos (radLat lat) ∧
    A * (1 - EE) / (magic lat * sqrtMagic lat) * PI ≠ 0 ∧
    A / sqrtMagic lat * Real.cos (radLat lat) * PI ≠ 0 := by
  have hmagic : ∀ l : ℝ, 0 < magic l := by
    intro l
    have hs := Real.sin_sq_le_one (radLat l)
    simp only [magic, EE]
    nlinarith [sq_nonneg (Real.sin (radLat l))]
  have hsqrt : ∀ l : ℝ, 0 < sqrtMagic l := fun l => Real.sqrt_pos.mpr (hmagic l)
  have hPI : (0 : ℝ) < PI := by norm_num [PI]
  have hA : (0 : ℝ) < A := by norm_num [A]
  have hEE : (0 : ℝ) < 1 - EE := by norm_num [EE]
  have hlo : -(Real.pi / 2) < radLat lat := by
    have hp := Real.pi_pos
    simp only [radLat, PI]
    nlinarith
  have hhi : radLat lat < Real.pi / 2 := by
    have hp := Real.pi_gt_three
    simp only [radLat, PI]
    nlinarith
  have hcos : 0 < Real.cos (radLat lat) := Real.cos_pos_of_mem_Ioo ⟨hlo, hhi⟩
  refine ⟨hmagic, hsqrt, hcos, ?_, ?_⟩
  · exact ne_of_gt (mul_pos (div_pos (mul_pos hA hEE)
      (mul_pos (hmagic lat) (hsqrt lat))) hPI)
  · exact ne_of_gt (mul_pos (mul_pos (div_pos hA (hsqrt lat)) hcos) hPI)

/-- Witness for C8 at the concrete in-box latitude 39.915. -/
theorem claim_c8_witness :
    (∀ l : ℝ, 0 < magic l) ∧ (∀ l : ℝ, 0 < sqrtMagic l) ∧
    0 < Real.cos (radLat 39.915) ∧
    A * (1 - EE) / (magic 39.915 * sqrtMagic 39.915) * PI ≠ 0 ∧
    A / sqrtMagic 39.915 * Real.cos (radLat 39.915) * PI ≠ 0 :=
  claim_c8_no_division_by_zero 39.915 (by norm_num) (by norm_num)

/-- Claim C6: each successfully parsed record produces one output line
holding `bd09_to_wgs84` of the input — which is `gcj02_to_wgs84` applied
to `bd09_to_gcj02` — with the calibration offset (+0.0001 to the
longitude, -0.0003 to the latitude) applied after the pipeline, the input
delimiter echoed after the longitude and a space before the latitude, and
the stream configured to fixed-point notation with 8 decimal digits. -/
theorem claim_c6_driver_output (r : Record) (rest : List (Option Record)) :
    processRecord r =
      ⟨(gcj02_to_wgs84 (bd09_to_gcj02 r.lng r.lat).1 (bd09_to_gcj02 r.lng r.lat).2).1
          + 0.0001,
       r.delim, ' ',
       (gcj02_to_wgs84 (bd09_to_gcj02 r.lng r.lat).1 (bd09_to_gcj02 r.lng r.lat).2).2
          - 0.0003⟩ ∧
    bd09_to_wgs84 r.lng r.lat =
      gcj02_to_wgs84 (bd09_to_gcj02 r.lng r.lat).1 (bd09_to_gcj02 r.lng r.lat).2 ∧
    mainLoop (some r :: rest) = processRecord r :: mainLoop rest ∧
    driverPrecision = 8 :=
  ⟨rfl, rfl, rfl, rfl⟩

/-- Claim C7: the driver's read loop stops at the first failed read (EOF
or malformed token): the failed record produces no output line, every
record parsed before it is printed, the exit code is 0, and an empty
input stream produces zero output lines. -/
theorem claim_c7_driver_termination (pre : List Record) (rest : List (Option Record)) :
    mainProgram (pre.map some ++ none :: rest) = (pre.map processRecord, 0) ∧
    mainProgram (pre.map some) = (pre.map processRecord, 0) ∧
    mainProgram [] = ([], 0) := by
  refine ⟨?_, ?_, rfl⟩
  · simp only [mainProgram, mainLoop_append_none]
  · simp only [mainProgram, mainLoop_all_some]
